import Mathlib

/-!
Verification of the go-simple-guard package (a callback cleanup guard for Go).

The Go source modelled here:

* `interface.go` — the `Guard` interface, the typed classified errors
  `guardFiredErr{}` / `guardCanceledErr{}` (exposing `Fired() bool` resp.
  `Canceled() bool`, both returning `true`), the no-op guard `nilGuard`,
  and the callback guard `CB` whose resolution state is the bit-flag field
  `state int8` with flags `stFired = 0x001` and `stCanceled = 0x010`,
  manipulated through the mutex-protected accessors `matchState`
  (`c.state&st == st`) and `setState` (`c.state = c.state ^ st`).
* `errors.go` — the classification queries `IsFiredError` and
  `IsCanceledError`, which loop over a chain of errors: if the current
  error implements the `Fired() bool` (resp. `Canceled() bool`) capability
  its answer is returned, otherwise if it implements `causer`
  (`Cause() error`) the walk moves to the cause; the loop runs while the
  current error is non-nil.

The guard state is modelled as a `Nat`; all reachable values of the Go
`int8` field lie in `{0, 1, 16, 17}`, on which Go `int8` bitwise `&` and
`^` agree with the `Nat` operations used here.  Go's `error` values are
`Option GoError` (`none` is Go `nil`).  `Fire` may recurse through a
reentrant callback and the `errors.go` loops may fail to advance, so both
are given fuel: a `none` result means the computation did not finish
within the given number of steps (and, when that holds for every fuel,
that the Go code does not terminate).
-/

namespace SimpleGuard

/-- Model of a non-nil Go `error` value as classified by `errors.go`:
`fired` is `guardFiredErr{}` (implements `Fired() bool`, no `Cause`),
`canceled` is `guardCanceledErr{}` (implements `Canceled() bool`, no
`Cause`), `wrap inner` is an error implementing neither classification
capability but implementing `causer`, whose `Cause()` returns the non-nil
error `inner`, `wrapNil` is such a wrapper whose `Cause()` returns nil,
and `other` is an error implementing none of the three interfaces. -/
inductive GoError where
  | fired
  | canceled
  | wrap (inner : GoError)
  | wrapNil
  | other
deriving DecidableEq, Repr

/-- Constant `stFired = 0x001` from `interface.go`. -/
def stFired : Nat := 0x001

/-- Constant `stCanceled = 0x010` from `interface.go`. -/
def stCanceled : Nat := 0x010

/-- Method `func (c *CB) matchState(st int8) bool`: returns
`c.state&st == st`, with the receiver's state passed as `s`.  The mutex
acquired by the Go method makes this read atomic; it guards nothing
beyond the single read. -/
def matchState (st s : Nat) : Bool := s &&& st == st

/-- Method `func (c *CB) setState(st int8)`: the new state
`c.state ^ st`, with the receiver's state passed as `s`.  The mutex
acquired by the Go method makes this single read-modify-write atomic. -/
def setState (st s : Nat) : Nat := s ^^^ st

/-- Behaviour of a bound `onFire` callback (`func() error`): `ret e`
returns `e` without touching the guard; `reFire` calls `c.Fire()` on the
same guard and returns its result; `reCancel` calls `c.Cancel()` on the
same guard and returns its result. -/
inductive Act where
  | ret (e : Option GoError)
  | reFire
  | reCancel
deriving DecidableEq, Repr

/-- Method `func (c *CB) Cancel() error` from `interface.go`, acting on
state `s`: check `matchState(stCanceled)`, then `matchState(stFired)`,
then `setState(stCanceled)`.  Returns the new state and the returned
error.  `Cancel` never invokes the `onFire` callback. -/
def CBCancel (s : Nat) : Nat × Option GoError :=
  if matchState stCanceled s then (s, some GoError.canceled)
  else if matchState stFired s then (s, some GoError.fired)
  else (setState stCanceled s, none)

/-- Method `func (c *CB) Fire() error` from `interface.go`, acting on
state `s` with callback `onFire` (`none` when no callback is bound):
check `matchState(stCanceled)`, then `matchState(stFired)`; otherwise
run the callback (if any) and only afterwards perform the deferred
`setState(stFired)` — the `defer` registered before the callback executes
when `Fire` returns, i.e. after `cb()`.  Returns
`(new state, returned error, number of callback invocations)`, or `none`
when the reentrant nesting depth exceeds `fuel` (each nested `Fire`
consumes one unit). -/
def CBFire (fuel : Nat) (onFire : Option Act) (s : Nat) :
    Option (Nat × Option GoError × Nat) :=
  if matchState stCanceled s then some (s, some GoError.canceled, 0)
  else if matchState stFired s then some (s, some GoError.fired, 0)
  else
    match onFire with
    | none => some (setState stFired s, none, 0)
    | some a =>
      match fuel with
      | 0 => none
      | f + 1 =>
        let inner : Option (Nat × Option GoError × Nat) :=
          match a with
          | Act.ret e => some (s, e, 0)
          | Act.reFire => CBFire f onFire s
          | Act.reCancel => some ((CBCancel s).1, (CBCancel s).2, 0)
        match inner with
        | none => none
        | some (s2, res, k) => some (setState stFired s2, res, k + 1)

/-- Function `IsFiredError` from `errors.go`, fuel-indexed: each unit of
fuel is one iteration of the `for err != nil` loop.  An iteration first
tries the `Fired() bool` capability (only `GoError.fired` implements it,
answering `true`), then the `causer` capability (only `GoError.wrap`
implements it), and otherwise leaves `err` unchanged — so the loop body
runs again on the same error.  `none` means the loop did not finish
within `fuel` iterations. -/
def isFiredError : Nat → Option GoError → Option Bool
  | _, none => some false
  | 0, some _ => none
  | f + 1, some e =>
    match e with
    | GoError.fired => some true
    | GoError.wrap inner => isFiredError f (some inner)
    | GoError.wrapNil => isFiredError f none
    | GoError.canceled => isFiredError f (some GoError.canceled)
    | GoError.other => isFiredError f (some GoError.other)

/-- Function `IsCanceledError` from `errors.go`, fuel-indexed exactly as
`isFiredError`; only `GoError.canceled` implements the `Canceled() bool`
capability, answering `true`. -/
def isCanceledError : Nat → Option GoError → Option Bool
  | _, none => some false
  | 0, some _ => none
  | f + 1, some e =>
    match e with
    | GoError.canceled => some true
    | GoError.wrap inner => isCanceledError f (some inner)
    | GoError.wrapNil => isCanceledError f none
    | GoError.fired => isCanceledError f (some GoError.fired)
    | GoError.other => isCanceledError f (some GoError.other)

/-- Wrapping an error in `n` layers of `causer`-exposing context. -/
def wrapN : Nat → GoError → GoError
  | 0, e => e
  | n + 1, e => GoError.wrap (wrapN n e)

/-- Method `func (ng nilGuard) Fire() error { return nil }`. -/
def nilGuardFire : Option GoError := none

/-- Method `func (ng nilGuard) Cancel() error { return nil }`. -/
def nilGuardCancel : Option GoError := none

/-- Run a sequence of calls on the no-op guard `Nil`: `true` is a `Fire`
call, `false` a `Cancel` call; the list of results is returned.  The
no-op guard has no state, so each call is independent. -/
def nilGuardRun : List Bool → List (Option GoError)
  | [] => []
  | b :: rest => (if b then nilGuardFire else nilGuardCancel) :: nilGuardRun rest

/-!
Interleaving model of concurrent `Fire` calls on one `CB` instance.

In `interface.go` the mutex lives inside `matchState` and `setState`, so
each of those is one atomic step, but a `Fire` call as a whole is not a
critical section: it is the sequence of atomic steps
`matchState(stCanceled)`, `matchState(stFired)`, callback invocation,
deferred `setState(stFired)`, and the shared state may change between
consecutive steps of one call.  A thread below executes `Fire` with a
bound callback `Act.ret actErr`; `pc` is its program counter (0 = before
the canceled check, 1 = before the fired check, 2 = before the callback,
3 = before the deferred `setState`), and `res` is its return value once
it has returned. -/

/-- One thread executing `c.Fire()` with callback `func() error`
returning `actErr`. -/
structure FireTh where
  pc : Nat
  actErr : Option GoError
  res : Option (Option GoError)
deriving DecidableEq, Repr

/-- Advance one `Fire` thread by one atomic step against shared guard
state `s`; result is the updated thread, the updated shared state, and
how many callback invocations the step performed (`0` or `1`).  A
finished thread does nothing. -/
def fireThStep (t : FireTh) (s : Nat) : FireTh × Nat × Nat :=
  if t.res.isSome then (t, s, 0)
  else if t.pc == 0 then
    if matchState stCanceled s then ({ t with res := some (some GoError.canceled) }, s, 0)
    else ({ t with pc := 1 }, s, 0)
  else if t.pc == 1 then
    if matchState stFired s then ({ t with res := some (some GoError.fired) }, s, 0)
    else ({ t with pc := 2 }, s, 0)
  else if t.pc == 2 then ({ t with pc := 3 }, s, 1)
  else ({ t with res := some t.actErr }, setState stFired s, 0)

/-- A system of threads racing on one guard: the shared `state` field of
the `CB`, the threads, and the total number of callback invocations
performed so far. -/
structure Sys where
  state : Nat
  threads : List FireTh
  invocations : Nat
deriving DecidableEq, Repr

/-- Let thread `i` take one atomic step (no-op when `i` is out of
range). -/
def sysStep (sys : Sys) (i : Nat) : Sys :=
  match sys.threads[i]? with
  | none => sys
  | some t =>
    match fireThStep t sys.state with
    | (t2, s2, k) =>
      { state := s2, threads := sys.threads.set i t2,
        invocations := sys.invocations + k }

/-- Run a schedule: at each point the named thread takes one atomic
step.  Every interleaving of the threads' steps is some schedule. -/
def runSched (sched : List Nat) (sys : Sys) : Sys :=
  sched.foldl sysStep sys

/-- Two threads concurrently calling `Fire` on one freshly constructed
guard (`state = 0`) whose callback returns nil. -/
def initFire2 : Sys :=
  { state := 0,
    threads := [{ pc := 0, actErr := none, res := none },
                { pc := 0, actErr := none, res := none }],
    invocations := 0 }

/-- C1: on a guard already resolved to Fired (the `stFired` bit set, the
`stCanceled` bit clear), every later `Fire` or `Cancel` returns the
`AlreadyFired`-classified error `guardFiredErr{}` with no state change
and no callback invocation; on a guard already resolved to Canceled (the
`stCanceled` bit set), both return the `AlreadyCanceled`-classified
error `guardCanceledErr{}` with no state change and no callback
invocation.  The two returned errors are classified as such by
`IsFiredError` / `IsCanceledError`. -/
theorem resolved_guard_rejects_fire_and_cancel (fuel : Nat) (onFire : Option Act) (s : Nat) :
    (matchState stFired s = true → matchState stCanceled s = false →
      CBFire fuel onFire s = some (s, some GoError.fired, 0) ∧
      CBCancel s = (s, some GoError.fired)) ∧
    (matchState stCanceled s = true →
      CBFire fuel onFire s = some (s, some GoError.canceled, 0) ∧
      CBCancel s = (s, some GoError.canceled)) ∧
    isFiredError 1 (some GoError.fired) = some true ∧
    isCanceledError 1 (some GoError.canceled) = some true := by
  refine ⟨fun h1 h2 => ⟨?_, ?_⟩, fun h1 => ⟨?_, ?_⟩, by decide, by decide⟩
  · unfold CBFire; simp [h1, h2]
  · simp [CBCancel, h1, h2]
  · unfold CBFire; simp [h1]
  · simp [CBCancel, h1]

/-- Witness for C1 at the concrete resolved states `1` (Fired) and `16`
(Canceled). -/
theorem resolved_guard_rejects_fire_and_cancel_witness :
    CBFire 0 none 1 = some (1, some GoError.fired, 0) ∧
    CBCancel 16 = (16, some GoError.canceled) :=
  ⟨((resolved_guard_rejects_fire_and_cancel 0 none 1).1 (by decide) (by decide)).1,
   ((resolved_guard_rejects_fire_and_cancel 0 none 16).2.1 (by decide)).2⟩

/-- C2 counterexample: on an unresolved guard whose callback reentrantly
calls `Cancel` on the same guard, the reentrant `Cancel` observes the
still-Unresolved state and succeeds (the whole `Fire` returns nil and
the final state `17` has both bits set), instead of the claimed
`AlreadyFired` error; and with a callback that reentrantly calls `Fire`,
the call does not resolve within any nesting depth up to 8 — it recurses
instead of returning an already-resolved error. -/
theorem reentrant_call_sees_unresolved_cex :
    CBFire 1 (some Act.reCancel) 0 = some (17, none, 1) ∧
    CBFire 1 (some Act.reCancel) 0 ≠ some (1, some GoError.fired, 1) ∧
    CBFire 8 (some Act.reFire) 0 = none := by
  refine ⟨by decide, by decide, by decide⟩

/-- C2 amended: `Fire`'s deferred `setState(stFired)` runs only after the
callback returns, so the Fired state is not yet committed while the
callback executes.  A reentrant `Cancel` from inside the callback
therefore observes Unresolved and succeeds — the outer `Fire` returns
nil and leaves the invalid state `17` (both bits set) — and a reentrant
`Fire` observes Unresolved and invokes the callback again, recursing
without terminating (it returns no result at every nesting depth). -/
theorem state_committed_only_after_action (f : Nat) :
    CBFire (f + 1) (some Act.reCancel) 0 = some (17, none, 1) ∧
    CBFire f (some Act.reFire) 0 = none := by
  constructor
  · simp [CBFire, CBCancel, matchState, setState, stFired, stCanceled]
  · induction f with
    | zero => decide
    | succ f ih => simp [CBFire, matchState, stFired, stCanceled, ih]

/-- C3: on an unresolved guard with a bound callback returning `e`, the
first `Fire` invokes the callback exactly once, returns `e` verbatim
(nil on success, the callback's error unchanged on failure), and resolves
the guard to Fired even when `e` is an error; any later `Fire` returns
the `AlreadyFired` error without invoking any callback. -/
theorem first_fire_runs_action_once (f f2 : Nat) (e : Option GoError) (onFire2 : Option Act) :
    CBFire (f + 1) (some (Act.ret e)) 0 = some (stFired, e, 1) ∧
    CBFire f2 onFire2 stFired = some (stFired, some GoError.fired, 0) := by
  constructor
  · simp [CBFire, matchState, setState, stFired, stCanceled]
  · unfold CBFire; simp [matchState, stFired, stCanceled]

/-- C4: `IsFiredError` returns true on an `AlreadyFired` error wrapped in
`n` layers of `Cause()`-exposing context, for every `n` (the walk needs
`n + 1` loop iterations, and any further fuel `k` is unused); but
`IsCanceledError` on the same wrapped error never returns: after
unwrapping the `n` layers it reaches `guardFiredErr{}`, which implements
neither `Canceled() bool` nor `causer`, so the loop no longer advances
and spins forever — it fails to produce a result at every fuel `f`,
contradicting the claim that it returns false. -/
theorem classification_of_wrapped_fired (n k f : Nat) :
    isFiredError (k + (n + 1)) (some (wrapN n GoError.fired)) = some true ∧
    isCanceledError f (some (wrapN n GoError.fired)) = none := by
  constructor
  · induction n with
    | zero => simp [isFiredError, wrapN]
    | succ n ih => simpa [isFiredError, wrapN, Nat.add_succ] using ih
  · induction f generalizing n with
    | zero => cases wrapN n GoError.fired <;> rfl
    | succ f ih =>
      cases n with
      | zero => simpa [isCanceledError, wrapN] using ih 0
      | succ n => simpa [isCanceledError, wrapN] using ih n

/-- C5: on a non-nil error that implements neither classification
capability nor `causer`, the `for err != nil` loops of `IsFiredError`
and `IsCanceledError` never advance `err`, so neither query terminates
(no result at any fuel `f`), contradicting the claim — and the
function's own doc comment — that the query returns false when the
capability is absent. -/
theorem classification_spins_on_plain_error (f : Nat) :
    isFiredError f (some GoError.other) = none ∧
    isCanceledError f (some GoError.other) = none := by
  induction f with
  | zero => exact ⟨rfl, rfl⟩
  | succ f ih => simpa [isFiredError, isCanceledError] using ih

/-- C6: on an unresolved guard, `Cancel` succeeds (returns nil) and
resolves the guard to Canceled; `Cancel` never invokes the `onFire`
callback (its model `CBCancel` performs no invocation at all), and every
later `Fire` — whatever callback is bound — returns the
`AlreadyCanceled`-classified error with zero callback invocations. -/
theorem cancel_wins_and_suppresses_action (fuel : Nat) (onFire : Option Act) :
    CBCancel 0 = (stCanceled, none) ∧
    CBFire fuel onFire stCanceled = some (stCanceled, some GoError.canceled, 0) ∧
    isCanceledError 1 (some GoError.canceled) = some true := by
  refine ⟨by decide, ?_, by decide⟩
  unfold CBFire; simp [matchState, stFired, stCanceled]

/-- C7: on an unresolved guard with no bound callback (`onFire` nil),
the first `Fire` succeeds (returns nil), performs zero callback
invocations, and resolves the guard to the Fired terminal state. -/
theorem fire_without_action_is_noop_success (fuel : Nat) :
    CBFire fuel none 0 = some (stFired, none, 0) := by
  cases fuel <;> rfl

/-- C8: the mutex protects each `matchState` / `setState` individually,
not the whole check-and-set, so two concurrent `Fire` calls can both
pass both state checks before either commits.  Under the schedule where
thread 0 performs its two checks, then thread 1 runs to completion, then
thread 0 finishes, the callback is invoked twice, both calls return nil
(both "win"), and the two deferred `setState(stFired)` XORs cancel out,
leaving the guard Unresolved — violating at-most-once invocation. -/
theorem concurrent_fires_run_action_twice :
    (runSched [0, 0, 1, 1, 1, 1, 0, 0] initFire2).invocations = 2 ∧
    (runSched [0, 0, 1, 1, 1, 1, 0, 0] initFire2).threads.map FireTh.res =
      [some none, some none] ∧
    (runSched [0, 0, 1, 1, 1, 1, 0, 0] initFire2).state = 0 := by
  refine ⟨by decide, by decide, by decide⟩

/-- C9: every sequence of `Fire` and `Cancel` calls on the no-op guard
`Nil`, of any length and in any order, returns nil from every call; the
guard has no state, so no call has any observable effect. -/
theorem nil_guard_always_succeeds (ops : List Bool) :
    nilGuardRun ops = List.replicate ops.length none := by
  induction ops with
  | nil => rfl
  | cons b rest ih => cases b <;> simp [nilGuardRun, nilGuardFire, nilGuardCancel, ih,
      List.replicate]

/-- C10: both classification queries, given a nil error, terminate
immediately (the `for err != nil` loop body never runs, at any fuel,
including fuel 0) and return false. -/
theorem classification_of_nil_error (f : Nat) :
    isFiredError f none = some false ∧ isCanceledError f none = some false := by
  cases f <;> exact ⟨rfl, rfl⟩

end SimpleGuard
